import Mathlib

/-!
# zipper: the `Zipper` archive writer interface (`src/Zipper.hpp`)

A shallow embedding of the class `zipper::Zipper` as declared in `Zipper.hpp`:
the two flag enumerations, the declared member functions with their default
arguments, the inline forwarding overloads, and the `m_open` guarded close
path.  Member functions that the header only declares are taken as the
fields of `Bodies`; the parts of the close path that the header leaves to
`struct Impl` follow the design document and say so in their doc comments.
-/

namespace zipper

/-! ## Enumerations -/

/-- Archive flags, `enum openFlags` (Zipper.hpp:31-37). -/
inductive openFlags where
  | Overwrite
  | Append
  deriving DecidableEq, Repr

/-- Numeric value of an `openFlags` enumerator (no initialisers: 0, 1). -/
def openFlags.toNat : openFlags → Nat
  | .Overwrite => 0
  | .Append => 1

/-- Compression options for files, `enum zipFlags` (Zipper.hpp:42-54). -/
inductive zipFlags where
  | Store
  | Faster
  | Medium
  | Better
  | SaveHierarchy
  deriving DecidableEq, Repr

/-- Numeric value of a `zipFlags` enumerator, as initialised in the header. -/
def zipFlags.toNat : zipFlags → Nat
  | .Store => 0x00
  | .Faster => 0x01
  | .Medium => 0x05
  | .Better => 0x09
  | .SaveHierarchy => 0x40

/-- The minizip level option each enumerator is documented with
(`-0  Store only`, `-1  Compress faster`, `-5  Compress medium`,
`-9  Compress better`); `SaveHierarchy` names no level. -/
def zipFlags.minizipLevel : zipFlags → Option Nat
  | .Store => some 0
  | .Faster => some 1
  | .Medium => some 5
  | .Better => some 9
  | .SaveHierarchy => none

/-- The four enumerators that name a compression level. -/
def zipFlags.levels : List zipFlags :=
  [.Store, .Faster, .Medium, .Better]

/-- Bitwise complement `~x` of a 32-bit integer, as its bit pattern (the same
pattern whether the promoted enumerator is `int` or `unsigned int`). -/
def bitNot (x : Nat) : Nat :=
  (2 ^ 32 - 1 - x % 2 ^ 32) % 2 ^ 32

/-! ## Writer state -/

/-- The C `struct tm` broken-down time passed to the timestamped `add`. -/
structure Tm where
  tm_sec : Int
  tm_min : Int
  tm_hour : Int
  tm_mday : Int
  tm_mon : Int
  tm_year : Int
  tm_wday : Int
  tm_yday : Int
  tm_isdst : Int
  deriving DecidableEq, Repr

/-- Modelled from the spec: the per-entry metadata record of the central
directory (design document, data model: name-in-archive, modification
timestamp, compression method and level, encryption flag, sizes, CRC-32 and
local-header offset).  The header only forward-declares `struct Impl`, which
owns these records. -/
structure Entry where
  name : String
  timestamp : Option Tm
  compression : Nat
  encrypted : Bool
  uncompressedSize : Nat
  compressedSize : Nat
  crc32 : Nat
  localHeaderOffset : Nat
  deriving DecidableEq, Repr

/-- Modelled from the spec: the byte sink of the design document, a growable
destination for bytes with `write` and `finalize`.  `bytes` is the content
of the destination up to the write cursor. -/
structure ByteSink where
  bytes : List Nat
  finalized : Bool
  deriving DecidableEq, Repr

/-- Modelled from the spec: `write(bytes)` on the sink, at the write cursor. -/
def ByteSink.write (s : ByteSink) (data : List Nat) : ByteSink :=
  ⟨s.bytes ++ data, s.finalized⟩

/-- Modelled from the spec: `finalize()` on the sink. -/
def ByteSink.finalize (s : ByteSink) : ByteSink :=
  ⟨s.bytes, true⟩

/-- Modelled from the spec: the content of `struct Impl`, which Zipper.hpp
only forward-declares: the sink handle and the central-directory
accumulator of the archive (design document, data model, Archive). -/
structure Impl where
  sink : ByteSink
  directory : List Entry
  deriving DecidableEq, Repr

/-- The data members of `class Zipper` (Zipper.hpp:183-193).  The reference
members `m_obuffer` and `m_vecbuffer` alias caller-owned storage; the
destination they (or the file `m_zipname`) stand for is the sink held by
`m_impl`.  `m_error_code` is the value of the `std::error_code`. -/
structure Zipper where
  m_zipname : String
  m_password : String
  m_usingMemoryVector : Bool
  m_usingStream : Bool
  m_open : Bool
  m_error_code : Int
  m_impl : Impl
  deriving DecidableEq, Repr

/-- Modelled from the spec: the binary layout of one central-directory
record and of the end-of-central-directory record (entry count, directory
size, directory offset).  The encoders are not part of the header. -/
structure Layout where
  centralRecord : Entry → List Nat
  endOfCentralDirectory : Nat → Nat → Nat → List Nat

/-- Modelled from the spec: `CentralDirectory.serialize(sink)`, "write all
records sequentially then the end-of-central-directory record". -/
def CentralDirectory.bytes (L : Layout) (dir : List Entry) (offset : Nat) : List Nat :=
  let records := (dir.map L.centralRecord).flatten
  records ++ L.endOfCentralDirectory dir.length records.length offset

/-- Modelled from the spec: serialisation of the directory into the sink. -/
def CentralDirectory.serialize (L : Layout) (dir : List Entry) (s : ByteSink) : ByteSink :=
  s.write (CentralDirectory.bytes L dir s.bytes.length)

/-- Result of a stream `add`: the thrown `std::runtime_error` message or the
returned `bool`, the writer afterwards, and the source stream afterwards
(`source` is an in/out parameter). -/
structure AddResult where
  ret : Except String Bool
  self : Zipper
  source : List Nat

/-- Result of a path `add`: thrown message or returned `bool`, and the writer
afterwards. -/
structure PathResult where
  ret : Except String Bool
  self : Zipper

/-- The member functions that Zipper.hpp declares without a body.  Their
definitions live outside the header; every statement below that depends on
them holds for all of them. -/
structure Bodies where
  /-- Constructor `Zipper(const std::string& zipname, const std::string& password, openFlags flags)`. -/
  ctor_file : String → String → openFlags → Except String Zipper
  /-- Constructor `Zipper(std::iostream& buffer, const std::string& password)`. -/
  ctor_stream : List Nat → String → Except String Zipper
  /-- Constructor `Zipper(std::vector<unsigned char>& buffer, const std::string& password)`. -/
  ctor_vector : List Nat → String → Except String Zipper
  /-- Member `bool add(std::istream&, const std::tm&, const std::string&, zipFlags)`. -/
  add_timestamp : Zipper → List Nat → Tm → String → Nat → AddResult
  /-- Member `bool add(std::istream&, const std::string&, zipFlags)`. -/
  add_name : Zipper → List Nat → String → Nat → AddResult
  /-- Member `bool add(const std::string&, zipFlags)`. -/
  add_path : Zipper → String → Nat → PathResult
  /-- Member `bool open(openFlags)`. -/
  open_flags : Zipper → openFlags → Bool × Zipper

/-! ## Constructors -/

/-- Constructor `Zipper(zipname, password, flags = Overwrite)` (Zipper.hpp:65-66):
an omitted `flags` is `Zipper::openFlags::Overwrite`. -/
def Zipper.ctor_password (b : Bodies) (zipname password : String)
    (flags : Option openFlags) : Except String Zipper :=
  b.ctor_file zipname password (flags.getD openFlags.Overwrite)

/-- Constructor `Zipper(zipname, flags = Overwrite)` (Zipper.hpp:76-78),
delegating to `Zipper(zipname, std::string(), flags)`. -/
def Zipper.ctor_zipname (b : Bodies) (zipname : String)
    (flags : Option openFlags) : Except String Zipper :=
  Zipper.ctor_password b zipname "" (some (flags.getD openFlags.Overwrite))

/-- Constructor `Zipper(std::iostream& buffer, password = std::string())`
(Zipper.hpp:87). -/
def Zipper.ctor_iostream (b : Bodies) (buffer : List Nat)
    (password : Option String) : Except String Zipper :=
  b.ctor_stream buffer (password.getD "")

/-- Constructor `Zipper(std::vector<unsigned char>& buffer, password = std::string())`
(Zipper.hpp:96-97). -/
def Zipper.ctor_vecbuffer (b : Bodies) (buffer : List Nat)
    (password : Option String) : Except String Zipper :=
  b.ctor_vector buffer (password.getD "")

/-! ## add -/

/-- Overload `add(source, timestamp, nameInZip, flags = Better)` (Zipper.hpp:115-116). -/
def Zipper.add_timestamp (b : Bodies) (z : Zipper) (source : List Nat) (timestamp : Tm)
    (nameInZip : String) (flags : Option Nat) : AddResult :=
  b.add_timestamp z source timestamp nameInZip (flags.getD zipFlags.Better.toNat)

/-- Overload `add(source, nameInZip, flags = Better)` (Zipper.hpp:128-129). -/
def Zipper.add_name (b : Bodies) (z : Zipper) (source : List Nat)
    (nameInZip : String) (flags : Option Nat) : AddResult :=
  b.add_name z source nameInZip (flags.getD zipFlags.Better.toNat)

/-- Overload `add(source, flags = Better)` (Zipper.hpp:131-135):
`return add(source, std::string(), flags);`. -/
def Zipper.add_source (b : Bodies) (z : Zipper) (source : List Nat)
    (flags : Option Nat) : AddResult :=
  Zipper.add_name b z source "" (some (flags.getD zipFlags.Better.toNat))

/-- Overload `add(const std::string& fileOrFolderPath, flags = Better)`
(Zipper.hpp:145-146). -/
def Zipper.add_path (b : Bodies) (z : Zipper) (fileOrFolderPath : String)
    (flags : Option Nat) : PathResult :=
  b.add_path z fileOrFolderPath (flags.getD zipFlags.Better.toNat)

/-- Overload `add(const char* fileOrFolderPath, flags = Better)`
(Zipper.hpp:149-153): `return add(std::string(fileOrFolderPath), flags);`.
The C string is given by its characters before the terminating NUL. -/
def Zipper.add_cstr (b : Bodies) (z : Zipper) (fileOrFolderPath : String)
    (flags : Option Nat) : PathResult :=
  Zipper.add_path b z fileOrFolderPath (some (flags.getD zipFlags.Better.toNat))

/-! ## close, destructor, open, error -/

/-- Modelled from the spec: the body of `void Zipper::close()`, declared at
Zipper.hpp:161 and defined outside the header.  Design document, writer
state machine: from `Open`, "serialize CentralDirectory +
end-of-central-directory to the sink, then finalize the sink" and become
`Closed`; "re-entrant close is a no-op".  The open/closed state is the
header's data member `m_open`.  The function returns `void`, so the result
is the writer alone. -/
def Zipper.close (L : Layout) (z : Zipper) : Zipper :=
  if z.m_open then
    { z with
      m_impl :=
        ⟨(CentralDirectory.serialize L z.m_impl.directory z.m_impl.sink).finalize,
          z.m_impl.directory⟩
      m_open := false }
  else z

/-- Modelled from the spec: the body of `~Zipper()`, declared at
Zipper.hpp:102 with the documentation "Call close()." and defined outside
the header.  Design document: the scoped teardown invokes the close path.
Releasing the memory of `m_impl` leaves no trace on the archive. -/
def Zipper.destructor (L : Layout) (z : Zipper) : Zipper :=
  Zipper.close L z

/-- Member `bool open(flags = Append)` (Zipper.hpp:170): an omitted `flags` is
`Zipper::openFlags::Append`. -/
def Zipper.open (b : Bodies) (z : Zipper) (flags : Option openFlags) : Bool × Zipper :=
  b.open_flags z (flags.getD openFlags.Append)

/-- Member `std::error_code const& error() const` (Zipper.hpp:175). -/
def Zipper.error (z : Zipper) : Int :=
  z.m_error_code

/-! ## Declared interface -/

/-- Result types that occur in the member declarations of `class Zipper`. -/
inductive CppType where
  | void
  | bool
  | errorCodeConstRef
  deriving DecidableEq, Repr

/-- Names of the member functions of `class Zipper`. -/
inductive MemberName where
  | constructor
  | destructor
  | add
  | close
  | open
  | error
  | release
  deriving DecidableEq, Repr

/-- One member-function declaration of Zipper.hpp: name, access, parameter
types with `true` marking a parameter that has a default argument, and the
declared result type (`none` for constructors and the destructor). -/
structure MemberDecl where
  name : MemberName
  isPublic : Bool
  params : List (String × Bool)
  result : Option CppType
  deriving DecidableEq, Repr

/-- The member functions declared in `class Zipper`, in header order
(Zipper.hpp:65-179). -/
def Zipper.declarations : List MemberDecl :=
  [ ⟨.constructor, true,
      [("const std::string&", false), ("const std::string&", false),
       ("Zipper::openFlags", true)], none⟩,
    ⟨.constructor, true,
      [("const std::string&", false), ("Zipper::openFlags", true)], none⟩,
    ⟨.constructor, true,
      [("std::iostream&", false), ("const std::string&", true)], none⟩,
    ⟨.constructor, true,
      [("std::vector<unsigned char>&", false), ("const std::string&", true)], none⟩,
    ⟨.destructor, true, [], none⟩,
    ⟨.add, true,
      [("std::istream&", false), ("const std::tm&", false),
       ("const std::string&", false), ("Zipper::zipFlags", true)], some .bool⟩,
    ⟨.add, true,
      [("std::istream&", false), ("const std::string&", false),
       ("Zipper::zipFlags", true)], some .bool⟩,
    ⟨.add, true,
      [("std::istream&", false), ("Zipper::zipFlags", true)], some .bool⟩,
    ⟨.add, true,
      [("const std::string&", false), ("Zipper::zipFlags", true)], some .bool⟩,
    ⟨.add, true,
      [("const char*", false), ("Zipper::zipFlags", true)], some .bool⟩,
    ⟨.close, true, [], some .void⟩,
    ⟨.open, true, [("Zipper::openFlags", true)], some .bool⟩,
    ⟨.error, true, [], some .errorCodeConstRef⟩,
    ⟨.release, false, [], some .void⟩ ]

/-- The public operations `add`, `open` and `close`. -/
def MemberName.isOperation : MemberName → Bool
  | .add => true
  | .open => true
  | .close => true
  | _ => false

/-! ## A sample instance of the out-of-header members

Used only to exhibit concrete runs of the statements that quantify over
`Bodies`; nothing is proved about the repository through it. -/

/-- An empty, open, in-memory archive. -/
def Sample.emptyImpl : Impl :=
  ⟨⟨[], false⟩, []⟩

/-- A freshly opened writer on the file `a.zip` without password. -/
def Sample.writer : Zipper :=
  ⟨"a.zip", "", false, false, true, 0, Sample.emptyImpl⟩

/-- A sample `Bodies`: constructors bind an empty sink, every stream `add`
stores the payload uncompressed and records one entry under the given name,
`open` truncates in `Overwrite` mode and keeps the archive in `Append`. -/
def Sample.bodies : Bodies where
  ctor_file zipname password _ :=
    .ok ⟨zipname, password, false, false, true, 0, Sample.emptyImpl⟩
  ctor_stream _ password :=
    .ok ⟨"", password, false, true, true, 0, Sample.emptyImpl⟩
  ctor_vector _ password :=
    .ok ⟨"", password, true, false, true, 0, Sample.emptyImpl⟩
  add_timestamp z source timestamp nameInZip flags :=
    ⟨.ok true,
      { z with
        m_impl :=
          ⟨z.m_impl.sink.write source,
            z.m_impl.directory ++
              [⟨nameInZip, some timestamp, flags, false, source.length, source.length, 0,
                z.m_impl.sink.bytes.length⟩]⟩ },
      []⟩
  add_name z source nameInZip flags :=
    ⟨.ok true,
      { z with
        m_impl :=
          ⟨z.m_impl.sink.write source,
            z.m_impl.directory ++
              [⟨nameInZip, none, flags, false, source.length, source.length, 0,
                z.m_impl.sink.bytes.length⟩]⟩ },
      []⟩
  add_path z _ _ := ⟨.ok false, z⟩
  open_flags z flags :=
    match flags with
    | .Overwrite => (true, { z with m_open := true, m_impl := Sample.emptyImpl })
    | .Append => (true, { z with m_open := true })

/-- A sample layout: a record is the bytes of the entry name followed by 0,
the end record is the three numbers. -/
def Sample.layout : Layout where
  centralRecord e := e.name.toList.map Char.toNat ++ [0]
  endOfCentralDirectory count size offset := [count, size, offset]

/-- A closed writer whose archive already holds one entry. -/
def Sample.closedWriter : Zipper :=
  Zipper.close Sample.layout
    (Sample.bodies.add_name Sample.writer [104, 105] "greeting.txt" 9).self

/-! ## Theorems -/

/-- C1: the level enumerators of `zipFlags` have the values Store = 0,
Faster = 1, Medium = 5, Better = 9; each value is the minizip level the
enumerator is documented with, and the four values are pairwise distinct. -/
theorem zipFlags_level_values :
    zipFlags.Store.toNat = 0 ∧ zipFlags.Faster.toNat = 1 ∧
    zipFlags.Medium.toNat = 5 ∧ zipFlags.Better.toNat = 9 ∧
    zipFlags.Store.minizipLevel = some zipFlags.Store.toNat ∧
    zipFlags.Faster.minizipLevel = some zipFlags.Faster.toNat ∧
    zipFlags.Medium.minizipLevel = some zipFlags.Medium.toNat ∧
    zipFlags.Better.minizipLevel = some zipFlags.Better.toNat ∧
    List.Pairwise (fun a b => a ≠ b) (zipFlags.levels.map zipFlags.toNat) := by
  decide

/-- C2: `SaveHierarchy` is the single bit 0x40 = 2^6, and for every level
enumerator `L` it is disjoint from `L`, so that masking the combined value
`L | SaveHierarchy` with `~SaveHierarchy` gives back `L` and masking it with
`SaveHierarchy` gives back `SaveHierarchy`. -/
theorem SaveHierarchy_orthogonal (L : zipFlags) (h : L ∈ zipFlags.levels) :
    zipFlags.SaveHierarchy.toNat = 0x40 ∧
    zipFlags.SaveHierarchy.toNat = 2 ^ 6 ∧
    L.toNat &&& zipFlags.SaveHierarchy.toNat = 0 ∧
    (L.toNat ||| zipFlags.SaveHierarchy.toNat) &&& bitNot zipFlags.SaveHierarchy.toNat
      = L.toNat ∧
    (L.toNat ||| zipFlags.SaveHierarchy.toNat) &&& zipFlags.SaveHierarchy.toNat
      = zipFlags.SaveHierarchy.toNat := by
  simp only [zipFlags.levels, List.mem_cons, List.mem_singleton, List.not_mem_nil,
    or_false] at h
  rcases h with rfl | rfl | rfl | rfl <;> decide

/-- Witness of C2 at the level `Better`: 9 | 0x40 = 0x49 splits back into 9
and 0x40. -/
theorem SaveHierarchy_orthogonal_witness :
    zipFlags.Better ∈ zipFlags.levels ∧
    (zipFlags.Better.toNat ||| zipFlags.SaveHierarchy.toNat) = 0x49 ∧
    (zipFlags.Better.toNat ||| zipFlags.SaveHierarchy.toNat)
        &&& bitNot zipFlags.SaveHierarchy.toNat = 9 ∧
    (zipFlags.Better.toNat ||| zipFlags.SaveHierarchy.toNat)
        &&& zipFlags.SaveHierarchy.toNat = 0x40 :=
  ⟨by decide, by decide,
    (SaveHierarchy_orthogonal zipFlags.Better (by decide)).2.2.2.1,
    (SaveHierarchy_orthogonal zipFlags.Better (by decide)).2.2.2.2⟩

/-- C3: `open()` is `open(Append)` for every writer, in particular for a
writer that was just closed; `Append` and `Overwrite` are different modes
(different enumerators with different values), and an `open` body that
looks at its mode tells `open()` from `open(Overwrite)`. -/
theorem open_default_Append (b : Bodies) (L : Layout) (z : Zipper) :
    Zipper.open b z none = Zipper.open b z (some openFlags.Append) ∧
    Zipper.open b (Zipper.close L z) none
      = b.open_flags (Zipper.close L z) openFlags.Append ∧
    openFlags.Append ≠ openFlags.Overwrite ∧
    openFlags.Append.toNat ≠ openFlags.Overwrite.toNat ∧
    Zipper.open Sample.bodies Sample.closedWriter none
      ≠ Zipper.open Sample.bodies Sample.closedWriter (some openFlags.Overwrite) := by
  refine ⟨rfl, rfl, by decide, by decide, ?_⟩
  decide

/-- C4: both file-path constructors take `Overwrite` when the open mode is
omitted. -/
theorem ctor_flags_default_Overwrite (b : Bodies) (zipname password : String) :
    Zipper.ctor_password b zipname password none
      = Zipper.ctor_password b zipname password (some openFlags.Overwrite) ∧
    Zipper.ctor_zipname b zipname none
      = Zipper.ctor_zipname b zipname (some openFlags.Overwrite) :=
  ⟨rfl, rfl⟩

/-- C5: omitting the password is passing the empty string: the constructor
`Zipper(zipname, flags)` is `Zipper(zipname, "", flags)` with the same
flags (given or omitted), and the stream and vector constructors called
without password hand the empty string to their bodies. -/
theorem ctor_password_default_empty (b : Bodies) (zipname : String)
    (flags : Option openFlags) (buffer : List Nat) :
    Zipper.ctor_zipname b zipname flags = Zipper.ctor_password b zipname "" flags ∧
    Zipper.ctor_iostream b buffer none = Zipper.ctor_iostream b buffer (some "") ∧
    Zipper.ctor_iostream b buffer none = b.ctor_stream buffer "" ∧
    Zipper.ctor_vecbuffer b buffer none = Zipper.ctor_vecbuffer b buffer (some "") ∧
    Zipper.ctor_vecbuffer b buffer none = b.ctor_vector buffer "" := by
  refine ⟨?_, rfl, rfl, rfl, rfl⟩
  cases flags <;> rfl

/-- C6, as stated, fails: not every public operation among `add`, `open`
and `close` has a boolean result, since `close` is declared `void`. -/
theorem close_result_not_bool :
    ¬ (∀ d ∈ Zipper.declarations, d.isPublic = true → d.name.isOperation = true →
        d.result = some CppType.bool) := by
  intro h
  have hc := h ⟨MemberName.close, true, [], some CppType.void⟩ (by decide) rfl rfl
  exact absurd hc (by decide)

/-- C6, amended: the header declares exactly five overloads of `add` and one
`open`, all public and all with result type `bool`; it declares exactly one
`close`, public, with result type `void`. -/
theorem add_open_result_bool_close_void :
    (Zipper.declarations.filter (fun d => decide (d.name = MemberName.add))).map
        (fun d => (d.isPublic, d.result))
      = List.replicate 5 (true, some CppType.bool) ∧
    (Zipper.declarations.filter (fun d => decide (d.name = MemberName.open))).map
        (fun d => (d.isPublic, d.result))
      = [(true, some CppType.bool)] ∧
    (Zipper.declarations.filter (fun d => decide (d.name = MemberName.close))).map
        (fun d => (d.isPublic, d.result))
      = [(true, some CppType.void)] := by
  decide

/-- C7: `close` is idempotent: a second `close` returns the writer the first
one produced, with the same sink bytes, so no further directory record is
written; after `close` the writer is closed, and `close` on a closed writer
changes nothing. -/
theorem close_idempotent (L : Layout) (z : Zipper) :
    Zipper.close L (Zipper.close L z) = Zipper.close L z ∧
    (Zipper.close L (Zipper.close L z)).m_impl.sink.bytes
      = (Zipper.close L z).m_impl.sink.bytes ∧
    (Zipper.close L z).m_open = false ∧
    Zipper.close L { z with m_open := false } = { z with m_open := false } := by
  have hclosed : (Zipper.close L z).m_open = false := by
    unfold Zipper.close
    split
    · rfl
    · simpa using ‹¬ z.m_open = true›
  have hidem : Zipper.close L (Zipper.close L z) = Zipper.close L z := by
    generalize Zipper.close L z = w at hclosed
    simp [Zipper.close, hclosed]
  refine ⟨hidem, by rw [hidem], hclosed, ?_⟩
  simp [Zipper.close]

/-- C8: the destructor runs the close path once.  On a writer that is still
open it does what `close()` does: the sink receives the central directory
and the end record once, after the bytes already written.  On a writer the
caller already closed it leaves the writer, and so the sink, as `close()`
left them. -/
theorem destructor_closes_once (L : Layout) (z : Zipper) :
    Zipper.destructor L { z with m_open := true }
      = Zipper.close L { z with m_open := true } ∧
    (Zipper.destructor L { z with m_open := true }).m_impl.sink.bytes
      = z.m_impl.sink.bytes ++
          CentralDirectory.bytes L z.m_impl.directory z.m_impl.sink.bytes.length ∧
    (Zipper.destructor L { z with m_open := true }).m_open = false ∧
    Zipper.destructor L (Zipper.close L z) = Zipper.close L z ∧
    (Zipper.destructor L (Zipper.close L z)).m_impl.sink.bytes
      = (Zipper.close L z).m_impl.sink.bytes := by
  have hclosed : (Zipper.close L z).m_open = false := by
    unfold Zipper.close
    split
    · rfl
    · simpa using ‹¬ z.m_open = true›
  have hidem : Zipper.destructor L (Zipper.close L z) = Zipper.close L z := by
    generalize Zipper.close L z = w at hclosed
    simp [Zipper.destructor, Zipper.close, hclosed]
  refine ⟨rfl, ?_, ?_, hidem, by rw [hidem]⟩
  · simp [Zipper.destructor, Zipper.close, CentralDirectory.serialize, ByteSink.write,
      ByteSink.finalize]
  · simp [Zipper.destructor, Zipper.close]

/-- C9: the stream overload of `add` without archive name is `add` with the
empty string as name: same returned value, same writer and same source
afterwards, for every source and flags (given or omitted).  Hence two calls
in a row hand the empty name to the named overload twice, and if the named
overload, when it returns true, appends one entry carrying the name it was
given, then two successful calls append two entries that both carry the
empty name. -/
theorem add_source_is_add_name_empty (b : Bodies) (z : Zipper)
    (source source2 : List Nat) (flags flags2 : Option Nat) :
    Zipper.add_source b z source flags = Zipper.add_name b z source "" flags ∧
    Zipper.add_source b (Zipper.add_source b z source flags).self source2 flags2
      = Zipper.add_name b (Zipper.add_name b z source "" flags).self source2 "" flags2 ∧
    ((∀ (w : Zipper) (s : List Nat) (n : String) (f : Nat),
        (b.add_name w s n f).ret = Except.ok true →
        ∃ e : Entry, e.name = n ∧
          (b.add_name w s n f).self.m_impl.directory = w.m_impl.directory ++ [e]) →
      (Zipper.add_source b z source flags).ret = Except.ok true →
      (Zipper.add_source b (Zipper.add_source b z source flags).self source2 flags2).ret
        = Except.ok true →
      ∃ e1 e2 : Entry, e1.name = "" ∧ e2.name = "" ∧
        (Zipper.add_source b (Zipper.add_source b z source flags).self source2
            flags2).self.m_impl.directory
          = z.m_impl.directory ++ [e1, e2]) := by
  have h1 : ∀ (w : Zipper) (s : List Nat) (f : Option Nat),
      Zipper.add_source b w s f = Zipper.add_name b w s "" f := by
    intro w s f
    cases f <;> rfl
  refine ⟨h1 z source flags, by rw [h1, h1], ?_⟩
  intro hrec hok1 hok2
  simp only [Zipper.add_source, Zipper.add_name] at hok1 hok2 ⊢
  obtain ⟨e1, hn1, hd1⟩ := hrec _ _ _ _ hok1
  obtain ⟨e2, hn2, hd2⟩ := hrec _ _ _ _ hok2
  exact ⟨e1, e2, hn1, hn2, by rw [hd2, hd1, List.append_assoc]; rfl⟩

/-- Witness of C9 with the sample bodies: two unnamed stream adds on an
empty archive both succeed and leave two entries named by the empty
string. -/
theorem add_source_is_add_name_empty_witness :
    ∃ e1 e2 : Entry, e1.name = "" ∧ e2.name = "" ∧
      (Zipper.add_source Sample.bodies
          (Zipper.add_source Sample.bodies Sample.writer [1, 2] none).self [3]
          (some 0)).self.m_impl.directory
        = Sample.writer.m_impl.directory ++ [e1, e2] :=
  (add_source_is_add_name_empty Sample.bodies Sample.writer [1, 2] [3] none (some 0)).2.2
    (fun _ _ _ _ _ => ⟨_, rfl, rfl⟩) rfl rfl

/-- C10: each of the five `add` overloads takes `Better` when `flags` is
omitted; `Better` is 9 and does not contain the `SaveHierarchy` bit; the
`const char*` overload passes its flags unchanged to the `std::string`
overload. -/
theorem add_flags_default_Better (b : Bodies) (z : Zipper) (source : List Nat)
    (timestamp : Tm) (nameInZip fileOrFolderPath : String) :
    Zipper.add_timestamp b z source timestamp nameInZip none
      = Zipper.add_timestamp b z source timestamp nameInZip (some zipFlags.Better.toNat) ∧
    Zipper.add_name b z source nameInZip none
      = Zipper.add_name b z source nameInZip (some zipFlags.Better.toNat) ∧
    Zipper.add_source b z source none
      = Zipper.add_source b z source (some zipFlags.Better.toNat) ∧
    Zipper.add_path b z fileOrFolderPath none
      = Zipper.add_path b z fileOrFolderPath (some zipFlags.Better.toNat) ∧
    Zipper.add_cstr b z fileOrFolderPath none
      = Zipper.add_cstr b z fileOrFolderPath (some zipFlags.Better.toNat) ∧
    zipFlags.Better.toNat = 9 ∧
    zipFlags.Better.toNat &&& zipFlags.SaveHierarchy.toNat = 0 ∧
    (∀ flags : Option Nat,
      Zipper.add_cstr b z fileOrFolderPath flags
        = Zipper.add_path b z fileOrFolderPath flags) ∧
    (∀ flags : Nat,
      Zipper.add_cstr b z fileOrFolderPath (some flags)
        = b.add_path z fileOrFolderPath flags) := by
  refine ⟨rfl, rfl, rfl, rfl, rfl, by decide, by decide, ?_, fun _ => rfl⟩
  intro flags
  cases flags <;> rfl

end zipper
